import Mathlib

/-!
# Choosing-Song client: verification of the result-cache-and-presentation engine

Shallow embedding of `src/Source/static/script.js` (the search client of the
Choosing-Song repository).  JavaScript numbers are modelled as rationals (`ℚ`),
JavaScript strings as Lean `String` (or `List Char` where character-level
operations such as `substring`/`includes` matter), `undefined`/absent fields as
`Option`, and `localStorage` as explicit state passed through each operation.
-/

namespace ChoosingSong

/-! ## Data model

A `Candidate` is one search-result item as consumed by `createCandidateCard`
(script.js lines 245-384).  Fields the backend may omit are `Option`; the three
score fields mirror `match_percent`, `hybrid_score`, `similarity_distance`.
Display-only fields that no verified operation inspects (`themes`, `mood`) are
not modelled. -/

structure Candidate where
  id : Option String
  title : Option String
  number : Option Int
  match_percent : Option ℚ
  hybrid_score : Option ℚ
  similarity_distance : Option ℚ
  lyrics : Option String
deriving Repr, DecidableEq

/-- The `/api/search` response body as read by `searchSongs` (script.js
lines 142-201) and `displayResults`.  `warning` is consumed as a truthy flag. -/
structure SearchResponse where
  candidates : Option (List Candidate)
  selected : Option Candidate
  reasoning : Option String
  warning : Bool
  message : Option String
  error : Option String
  enhanced_query : Option String
deriving Repr, DecidableEq

/-- One record of the persisted `searchHistory` array, as written by
`saveSearchHistory` (script.js lines 525-537).  `cachedResult` is `Option`
because `useHistoryQuery` (line 587) guards on its truthiness
(`item.cachedResult`), even though `saveSearchHistory` always stores one. -/
structure HistoryEntry where
  query : String
  timestamp : Nat
  selectedTitle : Option String
  cachedResult : Option SearchResponse
deriving Repr, DecidableEq

/-! ## ScoreNormalizer -/

/-- `Math.max(0, Math.min(100, x))`, the clamp used on every score branch of
`createCandidateCard` (script.js lines 327, 337, 347). -/
def jsClamp (x : ℚ) : ℚ := max 0 (min 100 x)

/-- The score-normalisation chain of `createCandidateCard` (script.js
lines 324-356): `match_percent` first, else `hybrid_score * 100`, else
`(1 - min(similarity_distance, 2) / 2) * 100`, each clamped to `[0, 100]`;
`none` when no score field is present (no similarity HTML is emitted). -/
def similarityPercent (song : Candidate) : Option ℚ :=
  match song.match_percent with
  | some p => some (jsClamp p)
  | none =>
    match song.hybrid_score with
    | some h => some (jsClamp (h * 100))
    | none =>
      match song.similarity_distance with
      | some d => some (jsClamp ((1 - min d 2 / 2) * 100))
      | none => none

/-! ## ResultCache (search history) -/

/-- `result.selected?.title || null` (script.js line 530): optional chaining
followed by JavaScript falsiness, so an absent `selected`, an absent `title`
and an empty-string `title` all store `null`. -/
def selectedTitleOf (sel : Option Candidate) : Option String :=
  match sel with
  | none => none
  | some s =>
    match s.title with
    | none => none
    | some t => if t = "" then none else some t

/-- The entry object built by `saveSearchHistory` (script.js lines 527-533). -/
def mkHistoryEntry (query : String) (ts : Nat) (result : SearchResponse) : HistoryEntry :=
  { query := query
    timestamp := ts
    selectedTitle := selectedTitleOf result.selected
    cachedResult := some result }

/-- `saveSearchHistory` (script.js lines 525-537): `unshift` the new entry onto
the parsed history, then `slice(0, 10)` before writing back.  `Date.now()` is
passed in explicitly as `ts`. -/
def saveSearchHistory (query : String) (ts : Nat) (result : SearchResponse)
    (history : List HistoryEntry) : List HistoryEntry :=
  (mkHistoryEntry query ts result :: history).take 10

/-- Folding a batch of searches through `saveSearchHistory`, oldest first. -/
def saveAll (items : List (String × Nat × SearchResponse))
    (history : List HistoryEntry) : List HistoryEntry :=
  items.foldl (fun acc i => saveSearchHistory i.1 i.2.1 i.2.2 acc) history

/-- The cache-lookup step of `useHistoryQuery` (script.js lines 586-589):
`history.find(item => item.query === query && item.cachedResult)`, then the
found entry's `cachedResult` (or `none` when nothing matched). -/
def historyLookup (query : String) (history : List HistoryEntry) : Option SearchResponse :=
  match history.find? (fun item => item.query == query && item.cachedResult.isSome) with
  | some entry => entry.cachedResult
  | none => none

section CacheLemmas

/-- Re-truncating a store that was already truncated by the previous insert
changes nothing: prepending to a capped list and capping again equals capping
the uncapped prepend. -/
theorem take_cons_take (q : String) (l : List String) :
    (q :: l.take 10).take 10 = (q :: l).take 10 := by
  simp [List.take_succ_cons, List.take_take]

/-- The queries stored after running a batch of inserts on the empty store are
the batch's queries, newest first, truncated to the 10 most recent. -/
theorem saveAll_nil_map_query (items : List (String × Nat × SearchResponse)) :
    (saveAll items []).map HistoryEntry.query =
      ((items.map Prod.fst).reverse).take 10 := by
  induction items using List.reverseRecOn with
  | nil => simp [saveAll]
  | append_singleton rest i ih =>
    have step : saveAll (rest ++ [i]) [] =
        saveSearchHistory i.1 i.2.1 i.2.2 (saveAll rest []) := by
      simp [saveAll, List.foldl_append]
    rw [step]
    simp only [saveSearchHistory, List.map_take, List.map_cons]
    rw [ih]
    rw [take_cons_take]
    simp [mkHistoryEntry]

end CacheLemmas

/-! ## Loading persisted history

`updateSearchHistory` (script.js lines 539-554) and `saveSearchHistory` both
begin with `JSON.parse(localStorage.getItem('searchHistory') || '[]')`, with no
`try`/`catch` anywhere on the path.  `getItem` yields `null` (or, degenerately,
a falsy empty string) when nothing is stored, in which case `'[]'` is parsed;
otherwise the stored string itself is handed to `JSON.parse`, which either
yields a value or throws a `SyntaxError`.  `StoredHistory` classifies the
persisted value by that outcome; `loadSearchHistory` embeds the expression. -/

inductive StoredHistory
  /-- `getItem` returned `null` or an empty string. -/
  | absent
  /-- `getItem` returned a string that `JSON.parse` accepts as an entry array. -/
  | wellFormed (entries : List HistoryEntry)
  /-- `getItem` returned a string that `JSON.parse` rejects. -/
  | corrupt (raw : String)
deriving Repr, DecidableEq

inductive LoadResult
  | loaded (entries : List HistoryEntry)
  /-- The `SyntaxError` thrown by `JSON.parse` propagates uncaught. -/
  | thrown (raw : String)
deriving Repr, DecidableEq

/-- `JSON.parse(localStorage.getItem('searchHistory') || '[]')` as executed by
`updateSearchHistory` (script.js line 540), with no surrounding `try`/`catch`. -/
def loadSearchHistory : StoredHistory → LoadResult
  | .absent => .loaded []
  | .wellFormed entries => .loaded entries
  | .corrupt raw => .thrown raw

/-! ## The search operation (`searchSongs`, script.js lines 142-201) -/

/-- Outcome of `fetch('/api/search', ...)` followed by `response.json()`:
either the promise chain rejects (network failure, or a body that is not JSON),
or a response with HTTP status classifier `ok` and a parsed body arrives. -/
inductive FetchResult
  | networkFailure (msg : String)
  | response (ok : Bool) (data : SearchResponse)
deriving Repr, DecidableEq

/-- The status banner set by `showStatus(message, type)`. -/
inductive SearchStatus
  | success (msg : String)
  | warning (msg : String)
  | info (msg : String)
  | error (msg : String)
deriving Repr, DecidableEq

def SearchStatus.isError : SearchStatus → Bool
  | .error _ => true
  | _ => false

def SearchStatus.isInfo : SearchStatus → Bool
  | .info _ => true
  | _ => false

/-- JavaScript `x || 'default'` on an optional string: the default replaces
both an absent and an empty (falsy) value. -/
def jsOrDefault (o : Option String) (d : String) : String :=
  match o with
  | some s => if s = "" then d else s
  | none => d

/-- `data.candidates && data.candidates.length > 0` (script.js line 163). -/
def hasCandidates (data : SearchResponse) : Bool :=
  match data.candidates with
  | some cs => decide (0 < cs.length)
  | none => false

/-- Everything `searchSongs` leaves behind: the (possibly updated) persisted
history, the status banner, whether the results panel was shown, and the
`currentSearchResult` assignment (`none` = the global is left untouched). -/
structure SearchOutcome where
  history : List HistoryEntry
  status : SearchStatus
  resultsShown : Bool
  currentResult : Option (String × Option Candidate)
deriving Repr, DecidableEq

/-- `searchSongs` (script.js lines 142-201).  The `fetch`/`json` outcome and
`Date.now()` are passed in explicitly.  On a rejected promise or a non-`ok`
response the `catch` block shows an error status; with a non-empty candidate
list the results are displayed, the query is saved to history and a success or
warning status is shown; otherwise an informational status is shown.  Only the
display branch calls `saveSearchHistory`. -/
def searchSongs (query : String) (ts : Nat) (fr : FetchResult)
    (history : List HistoryEntry) : SearchOutcome :=
  match fr with
  | .networkFailure msg =>
    { history := history
      status := .error ("Ошибка: " ++ msg)
      resultsShown := false
      currentResult := none }
  | .response ok data =>
    if !ok then
      { history := history
        status := .error ("Ошибка: " ++ jsOrDefault data.error "Ошибка при поиске")
        resultsShown := false
        currentResult := none }
    else if hasCandidates data then
      { history := saveSearchHistory query ts data history
        status :=
          if data.warning then .warning (jsOrDefault data.message "Модели временно перегружены")
          else .success "Поиск выполнен успешно!"
        resultsShown := true
        currentResult := some (query, data.selected) }
    else
      { history := history
        status := .info (jsOrDefault data.message "Не найдено подходящих песен")
        resultsShown := false
        currentResult := none }

/-! ## The submit handler (script.js lines 33-43) -/

/-- `queryInput.value.trim()`: strip leading and trailing whitespace. -/
def jsTrim (s : String) : String :=
  String.mk (((s.toList.dropWhile Char.isWhitespace).reverse.dropWhile
    Char.isWhitespace).reverse)

/-- What the form-submit handler does after `e.preventDefault()`: either it
shows the empty-query error status and returns before any network activity, or
it invokes `searchSongs` on the trimmed query. -/
inductive SubmitAction
  /-- `showStatus('Запрос не может быть пустым', 'error'); return;` — no
  loading indicator, no fetch, no transition to the Searching state. -/
  | rejectEmpty
  /-- `await searchSongs(query)` with the trimmed query. -/
  | runSearch (query : String)
deriving Repr, DecidableEq

/-- The submit handler body: `const query = queryInput.value.trim();
if (!query) { showStatus(...); return; } await searchSongs(query);`. -/
def submitHandler (input : String) : SubmitAction :=
  let query := jsTrim input
  if query = "" then .rejectEmpty else .runSearch query

/-! ## Selected-candidate marking (script.js lines 249-251) -/

/-- `if (selectedSong && song.id === selectedSong.id) card.classList.add('selected')`.
JavaScript strict equality on two absent (`undefined`) ids is `true`, which
`Option` equality mirrors (`none == none`). -/
def candidateMarkedSelected (song : Candidate) (selected : Option Candidate) : Bool :=
  match selected with
  | none => false
  | some sel => song.id == sel.id

/-! ## Candidate-card lyrics state (script.js lines 277-316 and 387-417)

JavaScript string primitives (`substring`, `length`, `includes`) act on the
character sequence, so this component models text as `List Char`.  A
`CardView` holds the pieces of a rendered card that `toggleLyrics` reads and
writes: the preview element's text content, the full-lyrics text, the two
inline `display` styles and the toggle button's label. -/

structure CardView where
  previewText : List Char
  fullText : List Char
  fullDisplay : List Char
  previewDisplay : List Char
  buttonLabel : List Char
deriving Repr, DecidableEq

def showFullLabel : List Char := "📝 Показать полный текст".toList

def showShortLabel : List Char := "📝 Показать текст".toList

def hideTextLabel : List Char := "📝 Скрыть текст".toList

/-- `startsWith target pat`: does `target` begin with `pat`?  (Helper for the
embedding of `String.prototype.includes`.) -/
def startsWith : List Char → List Char → Bool
  | _, [] => true
  | [], _ :: _ => false
  | c :: cs, p :: ps => c == p && startsWith cs ps

/-- `s.includes(pat)` of JavaScript: `pat` occurs contiguously in `s`. -/
def jsIncludes (s pat : List Char) : Bool :=
  match s with
  | [] => startsWith [] pat
  | _ :: cs => startsWith s pat || jsIncludes cs pat

/-- The literal `'...'` appended to a truncated preview (script.js line 300). -/
def ellipsis : List Char := ['.', '.', '.']

/-- The card state built by `createCandidateCard` for a candidate with lyrics
(script.js lines 285-316): `lyrics` is the canonical trimmed string.  When it
exceeds 150 characters the preview is `lyrics.substring(0, 150)` plus `'...'`
and the button reads «Показать полный текст»; otherwise the preview is the
whole text and the button reads «Показать текст».  The full-lyrics element
starts with `display: none` (Collapsed); the preview has no inline display. -/
def mkLyricsCard (lyrics : List Char) : CardView :=
  let hasFullLyrics : Bool := decide (150 < lyrics.length)
  { previewText := if hasFullLyrics then lyrics.take 150 ++ ellipsis else lyrics
    fullText := lyrics
    fullDisplay := "none".toList
    previewDisplay := []
    buttonLabel := if hasFullLyrics then showFullLabel else showShortLabel }

/-- `toggleLyrics` (script.js lines 387-417).  Hidden is
`display === 'none' || display === ''`.  Expanding shows the full text and sets
the «Скрыть текст» label; collapsing re-shows the preview and re-derives the
label from the preview text: long means `length > 150` or it `includes('...')`. -/
def toggleLyrics (c : CardView) : CardView :=
  if c.fullDisplay == "none".toList || c.fullDisplay == [] then
    { c with
      fullDisplay := "block".toList
      previewDisplay := "none".toList
      buttonLabel := hideTextLabel }
  else
    { c with
      fullDisplay := "none".toList
      previewDisplay := "block".toList
      buttonLabel :=
        if decide (150 < c.previewText.length) || jsIncludes c.previewText ellipsis
        then showFullLabel else showShortLabel }

/-! ## FeedbackGate

Modelled from the spec: the FeedbackGate component (`submit(like|dislike)`
posting `{ query, selected_song_id, feedback }` to `/feedback`, failing with
`NoSelection` when nothing is selected, one-shot per displayed selection,
re-opened by a new search) is described in the specification but no feedback
code is present under `src/`; the definitions below follow the spec's words. -/

inductive FeedbackOutcome
  | like
  | dislike
deriving Repr, DecidableEq

/-- The `POST /feedback` body of the spec's external-interface section. -/
structure FeedbackSubmission where
  query : String
  selected_song_id : String
  feedback : FeedbackOutcome
deriving Repr, DecidableEq

/-- Modelled from the spec: the gate's state — the displayed selection (if
any) and whether a submission has already happened for this result set. -/
structure FeedbackGate where
  query : String
  selectedSongId : Option String
  submitted : Bool
deriving Repr, DecidableEq

inductive FeedbackError
  | NoSelection
deriving Repr, DecidableEq

/-- Modelled from the spec: one click of like/dislike.  With no selection it
fails with `NoSelection`; with the gate already in the submitted state the
click performs no network submission; otherwise it emits exactly one
submission and closes the gate. -/
def FeedbackGate.submit (g : FeedbackGate) (o : FeedbackOutcome) :
    Except FeedbackError (FeedbackGate × Option FeedbackSubmission) :=
  match g.selectedSongId with
  | none => .error .NoSelection
  | some sid =>
    if g.submitted then .ok (g, none)
    else .ok ({ g with submitted := true }, some ⟨g.query, sid, o⟩)

/-- Modelled from the spec: a new search displays a fresh result set and
resets the gate to open. -/
def FeedbackGate.resetForNewSearch (query : String) (sel : Option String) : FeedbackGate :=
  { query := query, selectedSongId := sel, submitted := false }

/-- Run a sequence of user clicks through the gate, counting the network
submissions that actually go out. -/
def runFeedbackClicks : FeedbackGate → List FeedbackOutcome → FeedbackGate × Nat
  | g, [] => (g, 0)
  | g, o :: rest =>
    match g.submit o with
    | .error _ => runFeedbackClicks g rest
    | .ok (g', sub) =>
      let r := runFeedbackClicks g' rest
      (r.1, (if sub.isSome then 1 else 0) + r.2)

/-! ## Replay from history (`useHistoryQuery`, script.js lines 579-602) -/

/-- The visible effect of `useHistoryQuery`: either the cached response is
rendered directly (`displayResults(cachedEntry.cachedResult)` plus a cache
status, no storage write), or a fresh `searchSongs` runs. -/
inductive ReplayOutcome
  | displayCached (r : SearchResponse)
  | searched (o : SearchOutcome)
deriving Repr, DecidableEq

/-- `useHistoryQuery` (script.js lines 579-602): look the query up in the
parsed history; on a hit display the cached result (the history is not
rewritten on this path), otherwise fall through to `searchSongs`.  Returns the
outcome together with the history store as it stands afterwards. -/
def useHistoryQuery (query : String) (ts : Nat) (fr : FetchResult)
    (history : List HistoryEntry) : ReplayOutcome × List HistoryEntry :=
  match historyLookup query history with
  | some r => (.displayCached r, history)
  | none =>
    let o := searchSongs query ts fr history
    (.searched o, o.history)

/-! ## Claims -/

/-- C1: the normalized score of a candidate is `clamp(match_percent, 0, 100)`
when `match_percent` is present; else `clamp(hybrid_score * 100, 0, 100)` when
`hybrid_score` is present; else `clamp((1 - min(similarity_distance, 2) / 2) * 100, 0, 100)`
when `similarity_distance` is present; else no score is produced — and
`match_percent` takes precedence over `hybrid_score`, which takes precedence
over `similarity_distance`, whenever several fields are present. -/
theorem claim_C1 :
    (∀ song : Candidate, ∀ p : ℚ, song.match_percent = some p →
      similarityPercent song = some (max 0 (min 100 p)))
    ∧ (∀ song : Candidate, ∀ h : ℚ, song.match_percent = none →
        song.hybrid_score = some h →
        similarityPercent song = some (max 0 (min 100 (h * 100))))
    ∧ (∀ song : Candidate, ∀ d : ℚ, song.match_percent = none →
        song.hybrid_score = none → song.similarity_distance = some d →
        similarityPercent song = some (max 0 (min 100 ((1 - min d 2 / 2) * 100))))
    ∧ (∀ song : Candidate, song.match_percent = none → song.hybrid_score = none →
        song.similarity_distance = none → similarityPercent song = none) := by
  refine ⟨?_, ?_, ?_, ?_⟩
  · intro song p hp
    simp [similarityPercent, jsClamp, hp]
  · intro song h hp hh
    simp [similarityPercent, jsClamp, hp, hh]
  · intro song d hp hh hd
    simp [similarityPercent, jsClamp, hp, hh, hd]
  · intro song hp hh hd
    simp [similarityPercent, hp, hh, hd]

/-- A candidate carrying only `hybrid_score = 0.873`, as in the spec's
example. -/
def hybridSample : Candidate :=
  { id := none, title := none, number := none, match_percent := none
    hybrid_score := some (873 / 1000), similarity_distance := none, lyrics := none }

/-- A candidate carrying only `similarity_distance = 0.5`. -/
def distanceSample : Candidate :=
  { id := none, title := none, number := none, match_percent := none
    hybrid_score := none, similarity_distance := some (1 / 2), lyrics := none }

/-- A candidate carrying `match_percent = 150` (clamped to 100) alongside a
`hybrid_score`, exercising the precedence. -/
def precedenceSample : Candidate :=
  { id := none, title := none, number := none, match_percent := some 150
    hybrid_score := some (1 / 2), similarity_distance := none, lyrics := none }

theorem claim_C1_witness :
    similarityPercent hybridSample = some (873 / 10)
    ∧ similarityPercent distanceSample = some 75
    ∧ similarityPercent precedenceSample = some 100 := by
  refine ⟨?_, ?_, ?_⟩
  · rw [claim_C1.2.1 hybridSample (873 / 1000) rfl rfl]
    norm_num
  · rw [claim_C1.2.2.1 distanceSample (1 / 2) rfl rfl rfl]
    norm_num
  · rw [claim_C1.1 precedenceSample 150 rfl]
    norm_num

/-- C2: an insert prepends the new entry (newest first) and truncates to the
first 10, so the store never exceeds 10 entries; inserting into a full store
of 10 evicts exactly the rear-most entry; and inserting 11 distinct queries
into an empty store leaves exactly the 10 most recent, the oldest evicted. -/
theorem claim_C2 :
    (∀ q ts r history, saveSearchHistory q ts r history
        = (mkHistoryEntry q ts r :: history).take 10)
    ∧ (∀ q ts r history, (saveSearchHistory q ts r history).length ≤ 10)
    ∧ (∀ q ts r history, history.length = 10 →
        saveSearchHistory q ts r history = mkHistoryEntry q ts r :: history.dropLast)
    ∧ (∀ (q0 : String) (t0 : Nat) (r0 : SearchResponse)
          (rest : List (String × Nat × SearchResponse)),
        (q0 :: rest.map Prod.fst).Nodup → rest.length = 10 →
        (saveAll ((q0, t0, r0) :: rest) []).map HistoryEntry.query
            = (rest.map Prod.fst).reverse
          ∧ q0 ∉ (saveAll ((q0, t0, r0) :: rest) []).map HistoryEntry.query) := by
  refine ⟨fun _ _ _ _ => rfl, ?_, ?_, ?_⟩
  · intro q ts r history
    simp [saveSearchHistory]
  · intro q ts r history hlen
    rw [saveSearchHistory, List.take_succ_cons, List.dropLast_eq_take, hlen]
  · intro q0 t0 r0 rest hnodup hlen
    have hmap : (saveAll ((q0, t0, r0) :: rest) []).map HistoryEntry.query
        = (rest.map Prod.fst).reverse := by
      rw [saveAll_nil_map_query]
      simp only [List.map_cons, List.reverse_cons]
      rw [List.take_append_of_le_length (by simp [hlen])]
      exact List.take_of_length_le (by simp [hlen])
    refine ⟨hmap, ?_⟩
    rw [hmap, List.mem_reverse]
    exact (List.nodup_cons.mp hnodup).1

/-- An empty search response, for concrete instantiations. -/
def emptyResponse : SearchResponse :=
  { candidates := none, selected := none, reasoning := none, warning := false
    message := none, error := none, enhanced_query := none }

/-- Eleven searches with pairwise distinct queries. -/
def elevenSearches : List (String × Nat × SearchResponse) :=
  [("q00", 0, emptyResponse), ("q01", 1, emptyResponse), ("q02", 2, emptyResponse),
   ("q03", 3, emptyResponse), ("q04", 4, emptyResponse), ("q05", 5, emptyResponse),
   ("q06", 6, emptyResponse), ("q07", 7, emptyResponse), ("q08", 8, emptyResponse),
   ("q09", 9, emptyResponse), ("q10", 10, emptyResponse)]

theorem claim_C2_witness :
    (saveAll elevenSearches []).map HistoryEntry.query
        = ((elevenSearches.tail.map Prod.fst).reverse)
      ∧ "q00" ∉ (saveAll elevenSearches []).map HistoryEntry.query :=
  claim_C2.2.2.2 "q00" 0 emptyResponse elevenSearches.tail (by decide) (by decide)

/-- C3: looking a query up immediately after inserting it returns exactly the
inserted response; and, on any store whose entries all carry a cached result
(as every entry written by `saveSearchHistory` does), the lookup returns the
cached result of the front-most entry whose stored query equals the looked-up
query, or `none` when no entry matches. -/
theorem claim_C3 :
    (∀ q ts r history, historyLookup q (saveSearchHistory q ts r history) = some r)
    ∧ (∀ q (history : List HistoryEntry),
        (∀ e ∈ history, e.cachedResult.isSome) →
        historyLookup q history
          = (history.find? (fun e => e.query == q)).bind HistoryEntry.cachedResult) := by
  constructor
  · intro q ts r history
    simp [historyLookup, saveSearchHistory, List.take_succ_cons, List.find?,
      mkHistoryEntry]
  · intro q history hwf
    induction history with
    | nil => simp [historyLookup, List.find?]
    | cons e t ih =>
      have he : e.cachedResult.isSome := hwf e (List.mem_cons_self e t)
      have ht : ∀ x ∈ t, x.cachedResult.isSome :=
        fun x hx => hwf x (List.mem_cons_of_mem e hx)
      by_cases hq : e.query == q
      · simp [historyLookup, List.find?, hq, he]
      · have hq' : (e.query == q) = false := by simpa using hq
        simpa [historyLookup, List.find?, hq', he] using ih ht

/-- A one-entry store holding a cached response under query `"мир"`. -/
def oneEntryStore : List HistoryEntry :=
  [{ query := "мир", timestamp := 5, selectedTitle := none,
     cachedResult := some emptyResponse }]

theorem claim_C3_witness :
    historyLookup "мир" (saveSearchHistory "мир" 7 emptyResponse []) = some emptyResponse
    ∧ historyLookup "тест" oneEntryStore
        = (oneEntryStore.find? (fun e => e.query == "тест")).bind HistoryEntry.cachedResult :=
  ⟨claim_C3.1 "мир" 7 emptyResponse [],
   claim_C3.2 "тест" oneEntryStore (by decide)⟩

/-- C4 counterexample: a persisted value that `JSON.parse` rejects does not
load as an empty history — the parse error propagates, because
`updateSearchHistory` wraps no `try`/`catch` around
`JSON.parse(localStorage.getItem('searchHistory') || '[]')`. -/
theorem claim_C4_counterexample :
    loadSearchHistory (StoredHistory.corrupt "not json")
        = LoadResult.thrown "not json"
      ∧ ∀ entries, loadSearchHistory (StoredHistory.corrupt "not json")
        ≠ LoadResult.loaded entries := by
  exact ⟨rfl, fun entries h => by cases h⟩

/-- C4 (amended): absent persisted data is treated as an empty history
sequence, and well-formed persisted data loads as stored; but unparsable
(corrupt) persisted data is not treated as empty — the `JSON.parse` exception
propagates out of the load, uncaught. -/
theorem claim_C4 :
    loadSearchHistory StoredHistory.absent = LoadResult.loaded []
    ∧ (∀ entries, loadSearchHistory (StoredHistory.wellFormed entries)
        = LoadResult.loaded entries)
    ∧ (∀ raw, loadSearchHistory (StoredHistory.corrupt raw) = LoadResult.thrown raw) :=
  ⟨rfl, fun _ => rfl, fun _ => rfl⟩

/-- A candidate with no identifier. -/
def noIdCandidate : Candidate :=
  { id := none, title := some "Song A", number := none, match_percent := none
    hybrid_score := none, similarity_distance := none, lyrics := none }

/-- C5 counterexample: when the rendered candidate and the selected item both
lack an identifier, the card IS marked selected — JavaScript evaluates
`song.id === selectedSong.id` as `undefined === undefined`, which is `true` —
contradicting the claim that no candidate is marked when either side lacks an
identifier. -/
theorem claim_C5_counterexample :
    candidateMarkedSelected noIdCandidate (some noIdCandidate) = true := rfl

/-- C5 (amended): a candidate card is marked as selected iff `selected` is
present and the candidate's optional id equals `selected`'s optional id, where
two absent identifiers compare equal; so no candidate is marked when
`selected` is absent, a candidate with an id is marked exactly when `selected`
carries the same id, but a candidate lacking an id is marked whenever the
selected item also lacks one. -/
theorem claim_C5 :
    (∀ song : Candidate, candidateMarkedSelected song none = false)
    ∧ (∀ song sel : Candidate,
        candidateMarkedSelected song (some sel) = true ↔ song.id = sel.id)
    ∧ (∀ song sel : Candidate, ∀ i j : String, song.id = some i → sel.id = some j →
        (candidateMarkedSelected song (some sel) = true ↔ i = j)) := by
  refine ⟨fun song => rfl, ?_, ?_⟩
  · intro song sel
    simp [candidateMarkedSelected]
  · intro song sel i j hi hj
    simp [candidateMarkedSelected, hi, hj]

theorem claim_C5_witness :
    (candidateMarkedSelected
        { noIdCandidate with id := some "1" } (some { noIdCandidate with id := some "1" })
      = true) :=
  (claim_C5.2.2 _ _ "1" "1" rfl rfl).mpr rfl

/-- C6: a search that ends in the Error state (network failure or non-2xx
response) or the Empty state (no candidates) leaves the history store exactly
unchanged and keeps the results panel hidden; the history changes only on a
success carrying at least one candidate, and then by exactly the
`saveSearchHistory` insert. -/
theorem claim_C6 :
    (∀ q ts msg history, (searchSongs q ts (FetchResult.networkFailure msg) history).history
          = history
        ∧ (searchSongs q ts (FetchResult.networkFailure msg) history).status.isError = true
        ∧ (searchSongs q ts (FetchResult.networkFailure msg) history).resultsShown = false)
    ∧ (∀ q ts data history, (searchSongs q ts (FetchResult.response false data) history).history
          = history
        ∧ (searchSongs q ts (FetchResult.response false data) history).status.isError = true
        ∧ (searchSongs q ts (FetchResult.response false data) history).resultsShown = false)
    ∧ (∀ q ts data history, hasCandidates data = false →
        (searchSongs q ts (FetchResult.response true data) history).history = history
        ∧ (searchSongs q ts (FetchResult.response true data) history).status.isInfo = true
        ∧ (searchSongs q ts (FetchResult.response true data) history).resultsShown = false)
    ∧ (∀ q ts fr history, (searchSongs q ts fr history).history ≠ history →
        ∃ data, fr = FetchResult.response true data ∧ hasCandidates data = true
          ∧ (searchSongs q ts fr history).history = saveSearchHistory q ts data history) := by
  refine ⟨?_, ?_, ?_, ?_⟩
  · intro q ts msg history
    exact ⟨rfl, rfl, rfl⟩
  · intro q ts data history
    exact ⟨rfl, rfl, rfl⟩
  · intro q ts data history hc
    refine ⟨?_, ?_, ?_⟩ <;> simp [searchSongs, hc, SearchStatus.isInfo]
  · intro q ts fr history hne
    match fr with
    | FetchResult.networkFailure msg => exact absurd rfl hne
    | FetchResult.response false data => exact absurd rfl hne
    | FetchResult.response true data =>
      by_cases hc : hasCandidates data
      · exact ⟨data, rfl, hc, by simp [searchSongs, hc]⟩
      · have hcf : hasCandidates data = false := by simpa using hc
        exact absurd (by simp [searchSongs, hcf]) hne

theorem claim_C6_witness :
    (searchSongs "пусто" 3 (FetchResult.response true emptyResponse) oneEntryStore).history
        = oneEntryStore
      ∧ (searchSongs "пусто" 3
          (FetchResult.response true emptyResponse) oneEntryStore).status.isInfo = true
      ∧ (searchSongs "пусто" 3
          (FetchResult.response true emptyResponse) oneEntryStore).resultsShown = false :=
  claim_C6.2.2.1 "пусто" 3 emptyResponse oneEntryStore rfl

/-- C7: a submission whose trimmed query is empty is rejected before any
network activity — the handler returns after showing the error status, with no
transition to the Searching state — and the search operation runs only for
non-empty trimmed queries. -/
theorem claim_C7 :
    (∀ input, jsTrim input = "" → submitHandler input = SubmitAction.rejectEmpty)
    ∧ (∀ input q, submitHandler input = SubmitAction.runSearch q →
        q = jsTrim input ∧ q ≠ "") := by
  constructor
  · intro input h
    simp [submitHandler, h]
  · intro input q h
    by_cases he : jsTrim input = ""
    · simp [submitHandler, he] at h
    · simp only [submitHandler, if_neg he] at h
      cases h
      exact ⟨rfl, he⟩

theorem claim_C7_witness :
    submitHandler "   " = SubmitAction.rejectEmpty
    ∧ ("мир" = jsTrim " мир " ∧ "мир" ≠ "") :=
  ⟨claim_C7.1 "   " (by decide),
   claim_C7.2 " мир " "мир" (by decide)⟩

/-- Short lyrics (at most 150 characters) that contain a literal `'...'`. -/
def shortDottedLyrics : List Char := "Свят, свят, свят...".toList

/-- C8 counterexample: a card whose lyrics are at most 150 characters long but
contain the substring `'...'` does not get its toggle label restored by the
round trip Collapsed → Expanded → Collapsed: the collapse branch of
`toggleLyrics` re-derives the label with the heuristic
`previewText.length > 150 || previewText.includes('...')`, which misfires on a
genuine ellipsis, relabelling the card «Показать полный текст» where it
started as «Показать текст». -/
theorem claim_C8_counterexample :
    (toggleLyrics (toggleLyrics (mkLyricsCard shortDottedLyrics))).buttonLabel
      ≠ (mkLyricsCard shortDottedLyrics).buttonLabel := by decide

/-- C8 (amended): every card with lyrics starts Collapsed; expanding reveals
the full lyrics text and relabels the control to the collapse affordance
«Скрыть текст»; collapsing re-hides it, re-shows the preview and leaves the
preview text exactly as it was — and the round trip restores the original
toggle label if and only if the lyrics exceed 150 characters or do not contain
the literal substring `'...'` (short lyrics containing `'...'` come back
labelled «Показать полный текст» instead of the original «Показать текст»). -/
theorem claim_C8 (lyrics : List Char) :
    (mkLyricsCard lyrics).fullDisplay = "none".toList
    ∧ (toggleLyrics (mkLyricsCard lyrics)).fullDisplay = "block".toList
    ∧ (toggleLyrics (mkLyricsCard lyrics)).previewDisplay = "none".toList
    ∧ (toggleLyrics (mkLyricsCard lyrics)).buttonLabel = hideTextLabel
    ∧ (toggleLyrics (mkLyricsCard lyrics)).fullText = lyrics
    ∧ (toggleLyrics (toggleLyrics (mkLyricsCard lyrics))).fullDisplay = "none".toList
    ∧ (toggleLyrics (toggleLyrics (mkLyricsCard lyrics))).previewDisplay = "block".toList
    ∧ (toggleLyrics (toggleLyrics (mkLyricsCard lyrics))).previewText
        = (mkLyricsCard lyrics).previewText
    ∧ ((toggleLyrics (toggleLyrics (mkLyricsCard lyrics))).buttonLabel
          = (mkLyricsCard lyrics).buttonLabel
        ↔ (150 < lyrics.length ∨ jsIncludes lyrics ellipsis = false)) := by
  have hbn : (("block".toList : List Char) == "none".toList) = false := by decide
  have hbe : (("block".toList : List Char) == ([] : List Char)) = false := by decide
  have hlab : showFullLabel ≠ showShortLabel := by decide
  by_cases hlong : 150 < lyrics.length
  · have hc : mkLyricsCard lyrics =
        { previewText := lyrics.take 150 ++ ellipsis, fullText := lyrics
          fullDisplay := "none".toList, previewDisplay := []
          buttonLabel := showFullLabel } := by
      simp [mkLyricsCard, hlong]
    have h1 : toggleLyrics (mkLyricsCard lyrics) =
        { previewText := lyrics.take 150 ++ ellipsis, fullText := lyrics
          fullDisplay := "block".toList, previewDisplay := "none".toList
          buttonLabel := hideTextLabel } := by
      rw [hc]; simp [toggleLyrics]
    have hplen : 150 < (lyrics.take 150 ++ ellipsis).length := by
      simp only [List.length_append, List.length_take, ellipsis, List.length_cons,
        List.length_nil]
      omega
    have h2 : toggleLyrics (toggleLyrics (mkLyricsCard lyrics)) =
        { previewText := lyrics.take 150 ++ ellipsis, fullText := lyrics
          fullDisplay := "none".toList, previewDisplay := "block".toList
          buttonLabel := showFullLabel } := by
      rw [h1]
      simp only [toggleLyrics, hbn, hbe, Bool.or_self, Bool.false_or, if_false,
        decide_eq_true hplen, Bool.true_or, if_true]
      simp
    rw [h2, h1, hc]
    simp [hlong]
  · have hc : mkLyricsCard lyrics =
        { previewText := lyrics, fullText := lyrics
          fullDisplay := "none".toList, previewDisplay := []
          buttonLabel := showShortLabel } := by
      simp [mkLyricsCard, hlong]
    have h1 : toggleLyrics (mkLyricsCard lyrics) =
        { previewText := lyrics, fullText := lyrics
          fullDisplay := "block".toList, previewDisplay := "none".toList
          buttonLabel := hideTextLabel } := by
      rw [hc]; simp [toggleLyrics]
    have h2 : toggleLyrics (toggleLyrics (mkLyricsCard lyrics)) =
        { previewText := lyrics, fullText := lyrics
          fullDisplay := "none".toList, previewDisplay := "block".toList
          buttonLabel := if jsIncludes lyrics ellipsis then showFullLabel
                         else showShortLabel } := by
      rw [h1]; simp [toggleLyrics, hbn, hbe, hlong]
    rw [h2, h1, hc]
    refine ⟨rfl, rfl, rfl, rfl, rfl, rfl, rfl, rfl, ?_⟩
    cases hinc : jsIncludes lyrics ellipsis with
    | false => simp [hinc]
    | true => simp [hinc, hlong, hlab]

/-- C9: `submit(like|dislike)` fails with `NoSelection` when no candidate is
selected; once a submission succeeds the gate is closed and later clicks send
nothing, so any sequence of clicks on an open gate produces at most one
network submission; and a new search resets the gate to open. -/
theorem claim_C9 :
    (∀ (g : FeedbackGate) o, g.selectedSongId = none →
      g.submit o = Except.error FeedbackError.NoSelection)
    ∧ (∀ (g : FeedbackGate) o sid, g.submitted = true → g.selectedSongId = some sid →
        g.submit o = Except.ok (g, none))
    ∧ (∀ (g : FeedbackGate) clicks, g.submitted = false →
        (runFeedbackClicks g clicks).2 ≤ 1)
    ∧ (∀ q sel clicks,
        (runFeedbackClicks (FeedbackGate.resetForNewSearch q sel) clicks).2 ≤ 1
        ∧ (FeedbackGate.resetForNewSearch q sel).submitted = false) := by
  have count_le : ∀ (clicks : List FeedbackOutcome) (g : FeedbackGate),
      (runFeedbackClicks g clicks).2 ≤ if g.submitted then 0 else 1 := by
    intro clicks
    induction clicks with
    | nil => intro g; simp [runFeedbackClicks]
    | cons o rest ih =>
      intro g
      cases hsel : g.selectedSongId with
      | none =>
        have hs : g.submit o = Except.error FeedbackError.NoSelection := by
          simp [FeedbackGate.submit, hsel]
        simpa [runFeedbackClicks, hs] using ih g
      | some sid =>
        by_cases hsub : g.submitted
        · have hs : g.submit o = Except.ok (g, none) := by
            simp [FeedbackGate.submit, hsel, hsub]
          have h := ih g
          simp only [hsub, if_true] at h
          simpa [runFeedbackClicks, hs, hsub] using h
        · have hs : g.submit o
              = Except.ok ({ g with submitted := true }, some ⟨g.query, sid, o⟩) := by
            simp [FeedbackGate.submit, hsel, hsub]
          have h := ih { g with submitted := true }
          simp at h
          simp [runFeedbackClicks, hs, hsub]
          omega
  refine ⟨?_, ?_, ?_, ?_⟩
  · intro g o hsel
    simp [FeedbackGate.submit, hsel]
  · intro g o sid hsub hsel
    simp [FeedbackGate.submit, hsel, hsub]
  · intro g clicks hsub
    have h := count_le clicks g
    simpa [hsub] using h
  · intro q sel clicks
    refine ⟨?_, rfl⟩
    have h := count_le clicks (FeedbackGate.resetForNewSearch q sel)
    simpa [FeedbackGate.resetForNewSearch] using h

/-- An open gate with the song `"s1"` selected for query `"мир"`. -/
def openGate : FeedbackGate :=
  { query := "мир", selectedSongId := some "s1", submitted := false }

theorem claim_C9_witness :
    ({ query := "мир", selectedSongId := none,
       submitted := false : FeedbackGate }.submit FeedbackOutcome.like
        = Except.error FeedbackError.NoSelection)
    ∧ (runFeedbackClicks openGate
        [FeedbackOutcome.like, FeedbackOutcome.like, FeedbackOutcome.dislike]).2 ≤ 1 :=
  ⟨claim_C9.1 _ FeedbackOutcome.like rfl,
   claim_C9.2.2.1 openGate _ rfl⟩

/-- C10: replaying a history query that has a cached result renders the cached
response directly and leaves the history store exactly as it was — no entry is
inserted or evicted, and the order and contents of all entries are
preserved. -/
theorem claim_C10 :
    ∀ q ts fr history r, historyLookup q history = some r →
      useHistoryQuery q ts fr history = (ReplayOutcome.displayCached r, history) := by
  intro q ts fr history r h
  simp [useHistoryQuery, h]

theorem claim_C10_witness :
    useHistoryQuery "мир" 9 (FetchResult.networkFailure "offline") oneEntryStore
      = (ReplayOutcome.displayCached emptyResponse, oneEntryStore) :=
  claim_C10 "мир" 9 (FetchResult.networkFailure "offline") oneEntryStore
    emptyResponse (by decide)

end ChoosingSong
